import Mathlib

/-!
Verification of the cloudflare-agents actor runtime specification.

The development shallowly embeds the parts of the repository that the
claims concern: the observability channel router (embedded from
packages/agents/src/observability/index.ts), and models of the state
synchronization protocol, persisted scheduler, keep-alive heartbeats,
outbound-connection orchestrator and RPC dispatcher.
-/

/- ───────────────────────── Observability ─────────────────────────
   Embedded from src/packages/agents/src/observability/index.ts. -/

/-- Named diagnostics channels (the keys of the `channels` record). -/
inductive Channel where
  | state
  | rpc
  | message
  | schedule
  | lifecycle
  | workflow
  | mcp
  deriving DecidableEq, Repr

/-- Model of JS String.prototype.startsWith on the character sequence. -/
def strStartsWith (s p : String) : Bool :=
  p.data.isPrefixOf s.data

/-- Embedded from getChannel in observability/index.ts: map an event
type to its diagnostics channel by prefix, in source order. -/
def getChannel (type : String) : Channel :=
  if strStartsWith type "mcp:" then Channel.mcp
  else if strStartsWith type "workflow:" then Channel.workflow
  else if strStartsWith type "schedule:" || strStartsWith type "queue:" then Channel.schedule
  else if strStartsWith type "message:" || strStartsWith type "tool:" then Channel.message
  else if type == "rpc" || strStartsWith type "rpc:" then Channel.rpc
  else if strStartsWith type "state:" then Channel.state
  else Channel.lifecycle

/-- Diagnostic event shape: type, payload, timestamp. -/
structure ObsEvent where
  type : String
  payload : String
  timestamp : Nat
  deriving DecidableEq, Repr

/-- Modelled from the spec: node diagnostics_channel publish delivers
the message to each subscriber of the channel (subscribers are numbered);
with no subscribers it performs no observable work. The Channel.publish
implementation itself lives outside this repository. -/
def channelPublish (subscribers : List Nat) (e : ObsEvent) : List (Nat × ObsEvent) :=
  subscribers.map fun s => (s, e)

/-- Embedded from genericObservability.emit: publish the event on the
single channel chosen by getChannel, given each channel's subscribers. -/
def genericObservabilityEmit (subs : Channel → List Nat) (e : ObsEvent) :
    Channel × List (Nat × ObsEvent) :=
  (getChannel e.type, channelPublish (subs (getChannel e.type)) e)

/- ──────────────────── State synchronization ────────────────────
   The Agent core (packages/agents/src/index.ts) is not present in the
   sources; the state-synchronization manager below is modelled from the
   specification, sections 3 and 4.2. -/

/-- Origin of a setState call: the server itself or a client connection. -/
inductive Source where
  | server
  | connection (id : Nat)
  deriving DecidableEq, Repr

/-- Modelled from the spec: the persisted and in-memory state of one
actor instance. stateRow is the durable store row (none = the persisted
marker says never initialized); cached is the in-memory current value,
lost on process reconstruction. -/
structure AgentState (S : Type) where
  cached : Option S
  stateRow : Option S
  deriving DecidableEq, Repr

/-- Modelled from the spec: a freshly created instance, nothing cached,
nothing persisted. -/
def freshAgent (S : Type) : AgentState S :=
  { cached := none, stateRow := none }

/-- Modelled from the spec: process eviction and rebuild — the in-memory
cache is lost, the durable store survives. -/
def reconstruct {S : Type} (a : AgentState S) : AgentState S :=
  { cached := none, stateRow := a.stateRow }

/-- Modelled from the spec: getState lazily materializes initialState
exactly once — a persisted value wins, otherwise the declared
initialState (if any) is materialized and persisted, otherwise the
result is undefined (none) and nothing is written. -/
def getState {S : Type} (initialState : Option S) (a : AgentState S) :
    Option S × AgentState S :=
  match a.cached with
  | some v => (some v, a)
  | none =>
    match a.stateRow with
    | some v => (some v, { a with cached := some v })
    | none =>
      match initialState with
      | some init => (some init, { cached := some init, stateRow := some init })
      | none => (none, a)

/-- Modelled from the spec: the mutation+persistence core of setState —
update the in-memory value and write it to the durable store. -/
def setStateCore {S : Type} (a : AgentState S) (v : S) : AgentState S :=
  { cached := some v, stateRow := some v }

/-- Outbound effects of the synchronization protocol: a state_error
frame sent to one connection, or a state broadcast tagged with its
source. -/
inductive Frame (S : Type) where
  | stateError (conn : Nat) (error : String)
  | broadcast (state : S) (src : Source)
  deriving DecidableEq, Repr

/-- Whether a frame is a state broadcast. -/
def Frame.isBroadcast {S : Type} : Frame S → Bool
  | Frame.broadcast _ _ => true
  | _ => false

/-- Whether a frame is a state_error frame. -/
def Frame.isStateError {S : Type} : Frame S → Bool
  | Frame.stateError _ _ => true
  | _ => false

/-- Modelled from the spec: the optional hooks of the synchronization
manager; each field records for which inputs the user hook throws. -/
structure SyncHooks (S : Type) where
  validateThrows : S → Source → Bool
  onStateChangedThrows : S → Source → Bool

/-- Result of one run of the synchronization protocol: the updated
instance, the frames sent over connections, and errors reported
best-effort through the error reporter. -/
structure SyncResult (S : Type) where
  agent : AgentState S
  frames : List (Frame S)
  reported : List String
  deriving Repr

/-- Modelled from the spec, section 4.2: setState runs the validation
hook synchronously — if it throws, abort with no mutation, no
persistence, no broadcast, and if the source is a connection send it a
state_error with message "State update rejected"; otherwise persist the
new value, invoke the change-notification hook best-effort (a throw is
caught and reported, never blocking), and emit exactly one broadcast of
the new value tagged with the source. -/
def setState {S : Type} (hooks : SyncHooks S) (a : AgentState S)
    (v : S) (src : Source) : SyncResult S :=
  if hooks.validateThrows v src then
    { agent := a
      frames :=
        match src with
        | Source.connection c => [Frame.stateError c "State update rejected"]
        | Source.server => []
      reported := [] }
  else
    { agent := setStateCore a v
      frames := [Frame.broadcast v src]
      reported :=
        if hooks.onStateChangedThrows v src then ["onStateChanged failed"] else [] }

/- ──────────────────────── Persisted scheduler ────────────────────────
   Modelled from the specification, sections 3 and 4.1; the firing
   implementation lives in the absent packages/agents/src/index.ts, and
   its row shape matches the cf_agents_schedules table used by
   src/packages/agents/src/tests/agents/schedule.ts. -/

/-- Persisted schedule row: id, callback name, due time, running flag,
execution start time (null on legacy rows) and attempt counter. -/
structure Schedule where
  id : String
  callback : String
  due_at : Nat
  running : Bool
  execution_started_at : Option Nat
  attempt_count : Nat
  deriving DecidableEq, Repr

/-- Modelled from the spec: a running schedule is hung when its
execution start time is older than the hang threshold; a legacy row
with running set and a null start time is likewise treated as hung. -/
def isHung (now threshold : Nat) (s : Schedule) : Bool :=
  s.running &&
    (match s.execution_started_at with
     | none => true
     | some t => decide (t + threshold < now))

/-- Modelled from the spec: a row is due when due_at has passed and it
is not running, or when it is hung. -/
def isDue (now threshold : Nat) (s : Schedule) : Bool :=
  (decide (s.due_at ≤ now) && !s.running) || isHung now threshold s

/-- Modelled from the spec: the due-set selection of one scheduler
tick. -/
def dueSet (now threshold : Nat) (rows : List Schedule) : List Schedule :=
  rows.filter (isDue now threshold)

/- ─────────────────────── keepAlive heartbeats ───────────────────────
   Modelled from the specification (section 5) and the changesets: each
   keepAlive call creates an independent interval schedule with callback
   _cf_keepAliveHeartbeat and returns a disposer that cancels exactly
   that schedule; cancelSchedule of an absent id is a no-op. -/

/-- Schedule table restricted to what keepAlive touches: rows are
(id, callback) pairs; nextId generates fresh schedule ids. -/
structure KAState where
  schedules : List (Nat × String)
  nextId : Nat
  deriving DecidableEq, Repr

/-- Empty schedule table. -/
def kaEmpty : KAState :=
  { schedules := [], nextId := 0 }

/-- Modelled from the spec: keepAlive creates one fresh heartbeat
schedule and returns its id (the disposer cancels that id). -/
def keepAlive (s : KAState) : Nat × KAState :=
  (s.nextId,
    { schedules := (s.nextId, "_cf_keepAliveHeartbeat") :: s.schedules
      nextId := s.nextId + 1 })

/-- Modelled from the spec: cancelSchedule(id) deletes the row when
present and reports whether anything was deleted; an absent id is a
no-op, never an error. -/
def cancelSchedule (s : KAState) (id : Nat) : Bool × KAState :=
  if id ∈ s.schedules.map Prod.fst then
    (true, { s with schedules := s.schedules.filter (fun p => p.1 != id) })
  else
    (false, s)

/-- Number of active heartbeat schedules in the table. -/
def heartbeatCount (s : KAState) : Nat :=
  (s.schedules.filter (fun p => p.2 == "_cf_keepAliveHeartbeat")).length

/- ──────────────── Outbound connection orchestrator ────────────────
   Modelled from the specification, sections 3 and 4.4; exercised by
   src/unnamed/part_001 and the waitForConnections E2E tests. -/

/-- Connection states of an outbound server connection. -/
inductive MCPConnState where
  | connecting
  | connected
  | authenticating
  | failed
  | disconnected
  deriving DecidableEq, Repr

/-- Persisted outbound-server row, keyed by id, as stored in
cf_agents_mcp_servers. -/
structure ServerRow where
  id : String
  server_url : String
  callback_url : String
  auth_url : Option String
  deriving DecidableEq, Repr

/-- Result of restoring persisted server rows: the in-memory connection
map (id, state) and the pending-wait set of ids whose background
attempts were started. -/
structure RestoreResult where
  connections : List (String × MCPConnState)
  pending : List String
  deriving DecidableEq, Repr

/-- Modelled from the spec, section 4.4: restoreConnectionsFromStorage
reads all persisted server rows; a row with a pending authorization URL
gets state authenticating directly and is never entered into the
pending-wait set; every other row starts a background connection
attempt (state connecting) whose settlement is registered in the
pending set. -/
def restoreConnectionsFromStorage (rows : List ServerRow) : RestoreResult :=
  { connections :=
      rows.map fun r =>
        (r.id,
          match r.auth_url with
          | some _ => MCPConnState.authenticating
          | none => MCPConnState.connecting)
    pending := (rows.filter (fun r => r.auth_url.isNone)).map (fun r => r.id) }

/-- One pending outbound attempt: the time at which it settles and
whether it settled successfully. -/
structure Attempt where
  settleTime : Nat
  succeeded : Bool
  deriving DecidableEq, Repr

/-- Latest settle time among the pending attempts. -/
def maxSettle (pending : List Attempt) : Nat :=
  pending.foldl (fun acc a => Nat.max acc a.settleTime) 0

/-- Modelled from the spec, section 4.4: waitForConnections resolves
immediately (time 0) when the pending set is empty; otherwise it
resolves once every pending attempt has settled, or when the timeout
elapses, whichever comes first; it never rejects the caller, so the
result is always ok and carries the resolve time. -/
def waitForConnections (pending : List Attempt) (timeout : Option Nat) :
    Except String Nat :=
  match pending with
  | [] => Except.ok 0
  | _ =>
    match timeout with
    | none => Except.ok (maxSettle pending)
    | some t => Except.ok (Nat.min (maxSettle pending) t)

/- ───────────────────────── RPC dispatcher ─────────────────────────
   Modelled from the specification, section 4.5; exercised by the
   observability tests and the TestCallableAgent fixtures. -/

/-- Diagnostic events emitted by the dispatcher. -/
inductive RPCEvent where
  | rpc (method : String)
  | rpcError (method : String) (error : String)
  deriving DecidableEq, Repr

/-- Whether an event is an rpc:error naming the given method. -/
def RPCEvent.isErrorFor (m : String) : RPCEvent → Bool
  | RPCEvent.rpcError m2 _ => m2 == m
  | _ => false

/-- Outcome of one RPC invocation as returned to the caller. -/
inductive RPCOutcome where
  | ok (result : String)
  | failure (error : String)
  deriving DecidableEq, Repr

/-- Result of dispatching one invocation: the response frame, the
diagnostic events emitted, and the list of methods actually executed. -/
structure DispatchResult where
  response : RPCOutcome
  events : List RPCEvent
  executed : List String
  deriving DecidableEq, Repr

/-- Modelled from the spec, section 4.5: an invocation is resolved by
name against the set of methods explicitly marked invocable; an unknown
or unmarked method produces a rejection result without executing
anything and emits one rpc:error diagnostic naming the method; a marked
method is executed, emits an rpc diagnostic, and a throw is surfaced as
a failure result together with an rpc:error diagnostic. -/
def dispatch (callables : List String) (run : String → Except String String)
    (method : String) : DispatchResult :=
  if callables.contains method then
    match run method with
    | Except.ok r =>
      { response := RPCOutcome.ok r
        events := [RPCEvent.rpc method]
        executed := [method] }
    | Except.error e =>
      { response := RPCOutcome.failure e
        events := [RPCEvent.rpc method, RPCEvent.rpcError method e]
        executed := [method] }
  else
    { response := RPCOutcome.failure ("Method " ++ method ++ " is not callable")
      events := [RPCEvent.rpcError method ("Method " ++ method ++ " is not callable")]
      executed := [] }

/-- Demo hooks over Nat states: validation throws exactly on value 1,
the change-notification hook throws exactly on value 2 (mirrors the
count-based triggers of TestThrowingStateAgent). -/
def demoHooks : SyncHooks Nat :=
  { validateThrows := fun v _ => v == 1
    onStateChangedThrows := fun v _ => v == 2 }

/-- One server-originated setState call, keeping only the instance. -/
def setStateRun {S : Type} (hooks : SyncHooks S) (a : AgentState S) (v : S) :
    AgentState S :=
  (setState hooks a v Source.server).agent

/-- Hooks identical to demoHooks except that the change-notification
hook never throws. -/
def demoHooksQuiet : SyncHooks Nat :=
  { validateThrows := fun v _ => v == 1
    onStateChangedThrows := fun _ _ => false }

/-- Hung schedule row: marked running 60 seconds ago (tick at time 100,
threshold 30). -/
def hungRow : Schedule :=
  { id := "hung", callback := "intervalCallback", due_at := 200, running := true
    execution_started_at := some 40, attempt_count := 0 }

/-- Legacy hung schedule row: marked running with a null start time. -/
def legacyRow : Schedule :=
  { id := "legacy", callback := "intervalCallback", due_at := 200, running := true
    execution_started_at := none, attempt_count := 0 }

/-- Persisted server row with a pending authorization URL. -/
def oauthRow : ServerRow :=
  { id := "oauth-server", server_url := "http://oauth-mcp.example.com"
    callback_url := "http://localhost:3000/callback"
    auth_url := some "https://auth.example.com/authorize" }

/-- Persisted server row without an authorization URL. -/
def regularRow : ServerRow :=
  { id := "regular-server", server_url := "http://nonexistent-mcp.example.com"
    callback_url := "http://localhost:3000/callback"
    auth_url := none }

/- ───────────────────────────── Theorems ───────────────────────────── -/

/-- Of two prefixes of the same list, one is a prefix of the other. -/
theorem prefix_total {α : Type} (l₁ l₂ l₃ : List α) (h₁ : l₁ <+: l₃) (h₂ : l₂ <+: l₃) :
    l₁ <+: l₂ ∨ l₂ <+: l₁ := by
  induction l₃ generalizing l₁ l₂ with
  | nil =>
    rw [List.prefix_nil] at h₁ h₂
    subst h₁; subst h₂; left; exact List.prefix_refl _
  | cons a t ih =>
    cases l₁ with
    | nil => left; exact List.nil_prefix
    | cons b u =>
      cases l₂ with
      | nil => right; exact List.nil_prefix
      | cons c v =>
        rw [List.cons_prefix_cons] at h₁ h₂
        obtain ⟨rfl, hu⟩ := h₁
        obtain ⟨rfl, hv⟩ := h₂
        rcases ih u v hu hv with h | h
        · left; rw [List.cons_prefix_cons]; exact ⟨rfl, h⟩
        · right; rw [List.cons_prefix_cons]; exact ⟨rfl, h⟩

/-- Two prefix tests on the same string cannot both succeed when
neither test string is a prefix of the other. -/
theorem strStartsWith_excl (t p q : String)
    (h : strStartsWith t p = true)
    (hpq : p.data.isPrefixOf q.data = false)
    (hqp : q.data.isPrefixOf p.data = false) :
    strStartsWith t q = false := by
  unfold strStartsWith at *
  by_contra hq
  rw [Bool.not_eq_false] at hq
  rw [List.isPrefixOf_iff_prefix] at h hq
  rcases prefix_total _ _ _ h hq with h1 | h1
  · rw [← List.isPrefixOf_iff_prefix] at h1
    simp [h1] at hpq
  · rw [← List.isPrefixOf_iff_prefix] at h1
    simp [h1] at hqp

/-- Claim C9: every emitted diagnostic event is published to exactly
one named channel determined by its type prefix — mcp:* to mcp,
workflow:* to workflow, schedule:* and queue:* to schedule, message:*
and tool:* to message, rpc and rpc:* to rpc, state:* to state, and
connect/destroy to lifecycle — and publishing with no subscribers
performs no observable work. -/
theorem observability_routing (t : String) :
    (strStartsWith t "mcp:" = true → getChannel t = Channel.mcp) ∧
    (strStartsWith t "workflow:" = true → getChannel t = Channel.workflow) ∧
    ((strStartsWith t "schedule:" = true ∨ strStartsWith t "queue:" = true) →
      getChannel t = Channel.schedule) ∧
    ((strStartsWith t "message:" = true ∨ strStartsWith t "tool:" = true) →
      getChannel t = Channel.message) ∧
    ((t = "rpc" ∨ strStartsWith t "rpc:" = true) → getChannel t = Channel.rpc) ∧
    (strStartsWith t "state:" = true → getChannel t = Channel.state) ∧
    ((t = "connect" ∨ t = "destroy") → getChannel t = Channel.lifecycle) ∧
    (∀ (subs : Channel → List Nat) (e : ObsEvent),
      subs (getChannel e.type) = [] → (genericObservabilityEmit subs e).2 = []) := by
  refine ⟨?_, ?_, ?_, ?_, ?_, ?_, ?_, ?_⟩
  · intro h
    simp [getChannel, h]
  · intro h
    have h1 := strStartsWith_excl t "workflow:" "mcp:" h (by decide) (by decide)
    simp [getChannel, h, h1]
  · intro h
    rcases h with h | h
    · have h1 := strStartsWith_excl t "schedule:" "mcp:" h (by decide) (by decide)
      have h2 := strStartsWith_excl t "schedule:" "workflow:" h (by decide) (by decide)
      simp [getChannel, h, h1, h2]
    · have h1 := strStartsWith_excl t "queue:" "mcp:" h (by decide) (by decide)
      have h2 := strStartsWith_excl t "queue:" "workflow:" h (by decide) (by decide)
      simp [getChannel, h, h1, h2]
  · intro h
    rcases h with h | h
    · have h1 := strStartsWith_excl t "message:" "mcp:" h (by decide) (by decide)
      have h2 := strStartsWith_excl t "message:" "workflow:" h (by decide) (by decide)
      have h3 := strStartsWith_excl t "message:" "schedule:" h (by decide) (by decide)
      have h4 := strStartsWith_excl t "message:" "queue:" h (by decide) (by decide)
      simp [getChannel, h, h1, h2, h3, h4]
    · have h1 := strStartsWith_excl t "tool:" "mcp:" h (by decide) (by decide)
      have h2 := strStartsWith_excl t "tool:" "workflow:" h (by decide) (by decide)
      have h3 := strStartsWith_excl t "tool:" "schedule:" h (by decide) (by decide)
      have h4 := strStartsWith_excl t "tool:" "queue:" h (by decide) (by decide)
      simp [getChannel, h, h1, h2, h3, h4]
  · intro h
    rcases h with rfl | h
    · decide
    · have h1 := strStartsWith_excl t "rpc:" "mcp:" h (by decide) (by decide)
      have h2 := strStartsWith_excl t "rpc:" "workflow:" h (by decide) (by decide)
      have h3 := strStartsWith_excl t "rpc:" "schedule:" h (by decide) (by decide)
      have h4 := strStartsWith_excl t "rpc:" "queue:" h (by decide) (by decide)
      have h5 := strStartsWith_excl t "rpc:" "message:" h (by decide) (by decide)
      have h6 := strStartsWith_excl t "rpc:" "tool:" h (by decide) (by decide)
      simp [getChannel, h, h1, h2, h3, h4, h5, h6]
  · intro h
    have h1 := strStartsWith_excl t "state:" "mcp:" h (by decide) (by decide)
    have h2 := strStartsWith_excl t "state:" "workflow:" h (by decide) (by decide)
    have h3 := strStartsWith_excl t "state:" "schedule:" h (by decide) (by decide)
    have h4 := strStartsWith_excl t "state:" "queue:" h (by decide) (by decide)
    have h5 := strStartsWith_excl t "state:" "message:" h (by decide) (by decide)
    have h6 := strStartsWith_excl t "state:" "tool:" h (by decide) (by decide)
    have h7 := strStartsWith_excl t "state:" "rpc:" h (by decide) (by decide)
    have hr : (t == "rpc") = false := by
      cases hb : t == "rpc" with
      | false => rfl
      | true =>
        have ht : t = "rpc" := eq_of_beq hb
        subst ht
        exact absurd h (by decide)
    simp [getChannel, h, h1, h2, h3, h4, h5, h6, h7, hr]
  · intro h
    rcases h with rfl | rfl
    · decide
    · decide
  · intro subs e hsub
    simp [genericObservabilityEmit, channelPublish, hsub]

/-- Witness for claim C9 at concrete event types for every routing
family and an empty subscriber map. -/
theorem observability_routing_witness :
    getChannel "mcp:connect" = Channel.mcp ∧
    getChannel "workflow:start" = Channel.workflow ∧
    getChannel "schedule:create" = Channel.schedule ∧
    getChannel "queue:retry" = Channel.schedule ∧
    getChannel "message:request" = Channel.message ∧
    getChannel "tool:result" = Channel.message ∧
    getChannel "rpc" = Channel.rpc ∧
    getChannel "rpc:error" = Channel.rpc ∧
    getChannel "state:update" = Channel.state ∧
    getChannel "connect" = Channel.lifecycle ∧
    getChannel "destroy" = Channel.lifecycle ∧
    (genericObservabilityEmit (fun _ => []) ⟨"rpc", "", 7⟩).2 = [] :=
  ⟨(observability_routing "mcp:connect").1 (by decide),
   (observability_routing "workflow:start").2.1 (by decide),
   (observability_routing "schedule:create").2.2.1 (Or.inl (by decide)),
   (observability_routing "queue:retry").2.2.1 (Or.inr (by decide)),
   (observability_routing "message:request").2.2.2.1 (Or.inl (by decide)),
   (observability_routing "tool:result").2.2.2.1 (Or.inr (by decide)),
   (observability_routing "rpc").2.2.2.2.1 (Or.inl rfl),
   (observability_routing "rpc:error").2.2.2.2.1 (Or.inr (by decide)),
   (observability_routing "state:update").2.2.2.2.2.1 (by decide),
   (observability_routing "connect").2.2.2.2.2.2.1 (Or.inl rfl),
   (observability_routing "destroy").2.2.2.2.2.2.1 (Or.inr rfl),
   (observability_routing "destroy").2.2.2.2.2.2.2 (fun _ => []) ⟨"rpc", "", 7⟩ rfl⟩

/-- Claim C1: a client-originated setState whose validation hook throws
performs no mutation, no persistence and no broadcast, and sends
exactly one state_error frame with message "State update rejected" to
the originating connection only; a client-originated setState whose
validation succeeds produces exactly one state broadcast and no error
frame. -/
theorem setState_validation_protocol {S : Type} (hooks : SyncHooks S)
    (a : AgentState S) (v : S) (c : Nat) :
    (hooks.validateThrows v (Source.connection c) = true →
      setState hooks a v (Source.connection c) =
        { agent := a
          frames := [Frame.stateError c "State update rejected"]
          reported := [] }) ∧
    (hooks.validateThrows v (Source.connection c) = false →
      ((setState hooks a v (Source.connection c)).frames.filter
          Frame.isBroadcast).length = 1 ∧
      (setState hooks a v (Source.connection c)).frames.filter
          Frame.isStateError = []) := by
  constructor
  · intro h
    simp [setState, h]
  · intro h
    constructor <;> simp [setState, h, Frame.isBroadcast, Frame.isStateError]

/-- Witness for claim C1: demoHooks reject value 1 and accept value 3. -/
theorem setState_validation_protocol_witness :
    setState demoHooks (freshAgent Nat) 1 (Source.connection 5) =
      { agent := freshAgent Nat
        frames := [Frame.stateError 5 "State update rejected"]
        reported := [] } ∧
    ((setState demoHooks (freshAgent Nat) 3 (Source.connection 5)).frames.filter
        Frame.isBroadcast).length = 1 ∧
    (setState demoHooks (freshAgent Nat) 3 (Source.connection 5)).frames.filter
        Frame.isStateError = [] :=
  ⟨(setState_validation_protocol demoHooks (freshAgent Nat) 1 5).1 rfl,
   ((setState_validation_protocol demoHooks (freshAgent Nat) 3 5).2 rfl).1,
   ((setState_validation_protocol demoHooks (freshAgent Nat) 3 5).2 rfl).2⟩


/-- Folding accepted setState calls leaves the last value both cached
and persisted. -/
theorem setStateRun_foldl {S : Type} (hooks : SyncHooks S) (vs : List S) (hne : vs ≠ [])
    (hv : ∀ v ∈ vs, hooks.validateThrows v Source.server = false) (a : AgentState S) :
    vs.foldl (setStateRun hooks) a =
      { cached := some (vs.getLast hne), stateRow := some (vs.getLast hne) } := by
  induction vs generalizing a with
  | nil => exact absurd rfl hne
  | cons v tl ih =>
    have hv0 : hooks.validateThrows v Source.server = false :=
      hv v (List.mem_cons_self v tl)
    cases tl with
    | nil =>
      simp [List.foldl, setStateRun, setState, hv0, setStateCore, List.getLast]
    | cons w tl2 =>
      rw [List.foldl_cons]
      rw [ih (by simp) (fun x hx => hv x (List.mem_cons_of_mem v hx))]
      simp [List.getLast_cons]

/-- Claim C2: getState after the Nth setState call returns exactly the
Nth value, and a freshly reconstructed instance over the same durable
store returns that same value — setState followed by getState
round-trips through persistence, including across process
reconstruction. -/
theorem setState_getState_roundtrip {S : Type} (hooks : SyncHooks S)
    (init : Option S) (vs : List S) (a : AgentState S) (hne : vs ≠ [])
    (hv : ∀ v ∈ vs, hooks.validateThrows v Source.server = false) :
    (getState init (vs.foldl (setStateRun hooks) a)).1 = some (vs.getLast hne) ∧
    (getState init (reconstruct (vs.foldl (setStateRun hooks) a))).1 =
      some (vs.getLast hne) := by
  rw [setStateRun_foldl hooks vs hne hv a]
  exact ⟨rfl, rfl⟩

/-- Witness for claim C2 at the call sequence 10, 20, 30. -/
theorem setState_getState_roundtrip_witness :
    (getState none ([10, 20, 30].foldl (setStateRun demoHooks) (freshAgent Nat))).1 =
      some 30 ∧
    (getState none
        (reconstruct ([10, 20, 30].foldl (setStateRun demoHooks) (freshAgent Nat)))).1 =
      some 30 :=
  setState_getState_roundtrip demoHooks none [10, 20, 30] (freshAgent Nat)
    (by decide) (by decide)

/-- Claim C6: for a setState that passes validation, a throw from the
change-notification hook is caught and reported best-effort and never
prevents persistence or the broadcast — the frames are exactly those of
a non-throwing hook. -/
theorem onStateChanged_best_effort {S : Type} (hooks hooks2 : SyncHooks S)
    (a : AgentState S) (v : S) (src : Source)
    (hval : hooks.validateThrows = hooks2.validateThrows)
    (h : hooks.validateThrows v src = false) :
    (setState hooks a v src).agent.stateRow = some v ∧
    (setState hooks a v src).frames = [Frame.broadcast v src] ∧
    (setState hooks a v src).frames = (setState hooks2 a v src).frames ∧
    (hooks.onStateChangedThrows v src = true →
      (setState hooks a v src).reported ≠ []) := by
  have h2 : hooks2.validateThrows v src = false := by rw [← hval]; exact h
  refine ⟨?_, ?_, ?_, ?_⟩
  · simp [setState, h, setStateCore]
  · simp [setState, h]
  · simp [setState, h, h2]
  · intro hthrow
    simp [setState, h, hthrow]


/-- Witness for claim C6 at value 2, on which demoHooks has a throwing
change-notification hook. -/
theorem onStateChanged_best_effort_witness :
    (setState demoHooks (freshAgent Nat) 2 Source.server).agent.stateRow = some 2 ∧
    (setState demoHooks (freshAgent Nat) 2 Source.server).frames =
      [Frame.broadcast 2 Source.server] ∧
    (setState demoHooks (freshAgent Nat) 2 Source.server).frames =
      (setState demoHooksQuiet (freshAgent Nat) 2 Source.server).frames ∧
    (demoHooks.onStateChangedThrows 2 Source.server = true →
      (setState demoHooks (freshAgent Nat) 2 Source.server).reported ≠ []) :=
  onStateChanged_best_effort demoHooks demoHooksQuiet (freshAgent Nat) 2
    Source.server rfl rfl

/-- Claim C10: with no declared initialState the first getState returns
undefined and writes nothing, and a subsequent setState still persists
its value so that both the same instance and a freshly reconstructed
instance return it. -/
theorem no_initialState_getState {S : Type} (hooks : SyncHooks S) (v : S)
    (hv : hooks.validateThrows v Source.server = false) :
    (getState none (freshAgent S)).1 = none ∧
    (getState none (freshAgent S)).2 = freshAgent S ∧
    (getState none (setStateRun hooks (freshAgent S) v)).1 = some v ∧
    (getState none (reconstruct (setStateRun hooks (freshAgent S) v))).1 = some v := by
  refine ⟨rfl, rfl, ?_, ?_⟩ <;>
    simp [setStateRun, setState, hv, setStateCore, getState, reconstruct, freshAgent]

/-- Witness for claim C10 at value 5. -/
theorem no_initialState_getState_witness :
    (getState none (freshAgent Nat)).1 = none ∧
    (getState none (freshAgent Nat)).2 = freshAgent Nat ∧
    (getState none (setStateRun demoHooks (freshAgent Nat) 5)).1 = some 5 ∧
    (getState none (reconstruct (setStateRun demoHooks (freshAgent Nat) 5))).1 =
      some 5 :=
  no_initialState_getState demoHooks 5 rfl

/-- Claim C3: the due-set selection of a scheduler tick includes every
schedule with running true whose execution start time is older than the
hang threshold, and every legacy row with running true and a null
execution start time, so a hung or legacy-hung schedule is retried on
the next tick. -/
theorem hung_schedule_retried (now threshold : Nat) (rows : List Schedule)
    (s : Schedule) (hmem : s ∈ rows) (hrun : s.running = true) :
    (s.execution_started_at = none → s ∈ dueSet now threshold rows) ∧
    (∀ t, s.execution_started_at = some t → t + threshold < now →
      s ∈ dueSet now threshold rows) := by
  constructor
  · intro hnone
    exact List.mem_filter.mpr ⟨hmem, by simp [isDue, isHung, hrun, hnone]⟩
  · intro t hsome hold
    exact List.mem_filter.mpr ⟨hmem, by simp [isDue, isHung, hrun, hsome, hold]⟩



/-- Witness for claim C3: both the hung row and the legacy row are in
the due set of the tick at time 100 with hang threshold 30. -/
theorem hung_schedule_retried_witness :
    hungRow ∈ dueSet 100 30 [hungRow, legacyRow] ∧
    legacyRow ∈ dueSet 100 30 [hungRow, legacyRow] :=
  ⟨(hung_schedule_retried 100 30 [hungRow, legacyRow] hungRow (by decide) rfl).2
      40 rfl (by decide),
   (hung_schedule_retried 100 30 [hungRow, legacyRow] legacyRow (by decide) rfl).1
      rfl⟩

/-- The max-settle fold never drops below its initial accumulator. -/
theorem foldl_max_init (l : List Attempt) (acc : Nat) :
    acc ≤ l.foldl (fun acc a => Nat.max acc a.settleTime) acc := by
  induction l generalizing acc with
  | nil => exact Nat.le_refl acc
  | cons x xs ih =>
    exact Nat.le_trans (Nat.le_max_left acc x.settleTime) (ih _)

/-- Every pending attempt settles no later than maxSettle. -/
theorem settleTime_le_maxSettle (pending : List Attempt) (a : Attempt)
    (h : a ∈ pending) : a.settleTime ≤ maxSettle pending := by
  unfold maxSettle
  generalize 0 = acc
  induction pending generalizing acc with
  | nil => cases h
  | cons x xs ih =>
    rcases List.mem_cons.mp h with rfl | h2
    · exact Nat.le_trans (Nat.le_max_right acc a.settleTime) (foldl_max_init xs _)
    · exact ih h2 _

/-- Claim C4: waitForConnections resolves immediately and never rejects
when the pending set is empty; with pending attempts it resolves
exactly when every attempt has settled or when the timeout elapses,
whichever comes first, and still never rejects the caller. -/
theorem waitForConnections_barrier :
    (∀ tmo, waitForConnections [] tmo = Except.ok 0) ∧
    (∀ pending tmo, ∃ r, waitForConnections pending tmo = Except.ok r) ∧
    (∀ pending, pending ≠ [] →
      waitForConnections pending none = Except.ok (maxSettle pending)) ∧
    (∀ pending t, pending ≠ [] →
      waitForConnections pending (some t) =
        Except.ok (Nat.min (maxSettle pending) t)) ∧
    (∀ pending a, a ∈ pending → a.settleTime ≤ maxSettle pending) := by
  refine ⟨?_, ?_, ?_, ?_, settleTime_le_maxSettle⟩
  · intro tmo
    cases tmo <;> rfl
  · intro pending tmo
    cases pending with
    | nil => exact ⟨0, by cases tmo <;> rfl⟩
    | cons p ps =>
      cases tmo with
      | none => exact ⟨maxSettle (p :: ps), rfl⟩
      | some t => exact ⟨Nat.min (maxSettle (p :: ps)) t, rfl⟩
  · intro pending h
    cases pending with
    | nil => exact absurd rfl h
    | cons p ps => rfl
  · intro pending t h
    cases pending with
    | nil => exact absurd rfl h
    | cons p ps => rfl

/-- Witness for claim C4: an empty pending set resolves at time 0, and
two attempts settling at 40 and 70 with timeout 50 resolve at 50. -/
theorem waitForConnections_barrier_witness :
    waitForConnections [] (some 100) = Except.ok 0 ∧
    waitForConnections [⟨40, true⟩, ⟨70, false⟩] (some 50) = Except.ok 50 ∧
    waitForConnections [⟨40, true⟩, ⟨70, false⟩] none = Except.ok 70 ∧
    Attempt.settleTime ⟨70, false⟩ ≤ maxSettle [⟨40, true⟩, ⟨70, false⟩] :=
  ⟨waitForConnections_barrier.1 (some 100),
   by
    have h := waitForConnections_barrier.2.2.2.1 [⟨40, true⟩, ⟨70, false⟩] 50
      (by decide)
    rw [h]; rfl,
   by
    have h := waitForConnections_barrier.2.2.1 [⟨40, true⟩, ⟨70, false⟩]
      (by decide)
    rw [h]; rfl,
   waitForConnections_barrier.2.2.2.2 [⟨40, true⟩, ⟨70, false⟩] ⟨70, false⟩
     (by decide)⟩

/-- Claim C5: a restored server row with a non-null authorization URL
gets connection state authenticating and is never entered into the
pending-wait set; every other row starts a background attempt (state
connecting) registered in the pending set. -/
theorem restore_auth_rows (rows : List ServerRow) (r : ServerRow)
    (hmem : r ∈ rows) (hnodup : (rows.map ServerRow.id).Nodup) :
    (r.auth_url ≠ none →
      (r.id, MCPConnState.authenticating) ∈
        (restoreConnectionsFromStorage rows).connections ∧
      r.id ∉ (restoreConnectionsFromStorage rows).pending) ∧
    (r.auth_url = none →
      (r.id, MCPConnState.connecting) ∈
        (restoreConnectionsFromStorage rows).connections ∧
      r.id ∈ (restoreConnectionsFromStorage rows).pending) := by
  constructor
  · intro hne
    constructor
    · refine List.mem_map.mpr ⟨r, hmem, ?_⟩
      cases hau : r.auth_url with
      | none => exact absurd hau hne
      | some u => simp [hau]
    · intro hpend
      obtain ⟨r2, hr2f, hr2id⟩ :=
        List.mem_map.mp hpend
      obtain ⟨hr2mem, hr2none⟩ := List.mem_filter.mp hr2f
      have hr2eq : r2 = r :=
        List.inj_on_of_nodup_map hnodup hr2mem hmem hr2id
      subst hr2eq
      rw [Option.isNone_iff_eq_none] at hr2none
      exact hne hr2none
  · intro hnone
    constructor
    · refine List.mem_map.mpr ⟨r, hmem, ?_⟩
      simp [hnone]
    · refine List.mem_map.mpr ⟨r, ?_, rfl⟩
      exact List.mem_filter.mpr ⟨hmem, by simp [hnone]⟩



/-- Witness for claim C5 on a mixed pair of persisted rows. -/
theorem restore_auth_rows_witness :
    ((oauthRow.id, MCPConnState.authenticating) ∈
        (restoreConnectionsFromStorage [oauthRow, regularRow]).connections ∧
      oauthRow.id ∉ (restoreConnectionsFromStorage [oauthRow, regularRow]).pending) ∧
    ((regularRow.id, MCPConnState.connecting) ∈
        (restoreConnectionsFromStorage [oauthRow, regularRow]).connections ∧
      regularRow.id ∈ (restoreConnectionsFromStorage [oauthRow, regularRow]).pending) :=
  ⟨(restore_auth_rows [oauthRow, regularRow] oauthRow (by decide)
      (by decide)).1 (by decide),
   (restore_auth_rows [oauthRow, regularRow] regularRow (by decide)
      (by decide)).2 rfl⟩

/-- Claim C7: an inbound RPC invocation naming a method not marked
invocable fails with a rejection result returned to the caller, never
executes the method, and emits exactly one rpc:error diagnostic
carrying that method name. -/
theorem rpc_uncallable_rejected (callables : List String)
    (run : String → Except String String) (m : String)
    (h : callables.contains m = false) :
    dispatch callables run m =
      { response := RPCOutcome.failure ("Method " ++ m ++ " is not callable")
        events := [RPCEvent.rpcError m ("Method " ++ m ++ " is not callable")]
        executed := [] } ∧
    ((dispatch callables run m).events.filter (RPCEvent.isErrorFor m)).length = 1 := by
  have h2 : m ∉ callables := by simpa using h
  constructor
  · simp [dispatch, h2]
  · simp [dispatch, h2, RPCEvent.isErrorFor]

/-- Witness for claim C7: privateMethod is not in the callable set of
TestCallableAgent. -/
theorem rpc_uncallable_rejected_witness :
    dispatch ["add", "asyncMethod", "throwError"] (fun _ => Except.ok "unused")
        "privateMethod" =
      { response :=
          RPCOutcome.failure ("Method " ++ "privateMethod" ++ " is not callable")
        events :=
          [RPCEvent.rpcError "privateMethod"
            ("Method " ++ "privateMethod" ++ " is not callable")]
        executed := [] } ∧
    ((dispatch ["add", "asyncMethod", "throwError"] (fun _ => Except.ok "unused")
        "privateMethod").events.filter
          (RPCEvent.isErrorFor "privateMethod")).length = 1 :=
  rpc_uncallable_rejected ["add", "asyncMethod", "throwError"]
    (fun _ => Except.ok "unused") "privateMethod" (by decide)

/-- Cancelling the id at the head of the schedule table removes exactly
that row when no other row carries the id. -/
theorem cancelSchedule_cons (nid i : Nat) (c : String)
    (rest : List (Nat × String)) (hni : ∀ p ∈ rest, p.1 ≠ i) :
    cancelSchedule { schedules := (i, c) :: rest, nextId := nid } i =
      (true, { schedules := rest, nextId := nid }) := by
  have hrest : rest.filter (fun p => p.1 != i) = rest :=
    List.filter_eq_self.mpr fun p hp => by
      simp only [bne_iff_ne, ne_eq, decide_eq_true_eq]
      exact hni p hp
  unfold cancelSchedule
  rw [if_pos (by simp)]
  simp [List.filter_cons, hrest]

/-- Cancelling an id that no row carries is a no-op reporting false. -/
theorem cancelSchedule_absent (st : KAState) (i : Nat)
    (hni : ∀ p ∈ st.schedules, p.1 ≠ i) :
    cancelSchedule st i = (false, st) := by
  unfold cancelSchedule
  rw [if_neg]
  intro hmem
  obtain ⟨p, hp, hpi⟩ := List.mem_map.mp hmem
  exact hni p hp hpi

/-- Claim C8: concurrent keepAlive calls stack — two starts yield two
active heartbeat schedules; the disposer of the second call cancels
exactly the schedule that call created, leaving one active (the first
schedule survives); invoking the disposer again is a no-op that reports
false and never throws. The hypothesis says every existing schedule id
is below the id generator, which keepAlive preserves. -/
theorem keepAlive_stacking (s : KAState)
    (hwf : ∀ p ∈ s.schedules, p.1 < s.nextId) :
    heartbeatCount (keepAlive (keepAlive s).2).2 = heartbeatCount s + 2 ∧
    (cancelSchedule (keepAlive (keepAlive s).2).2
        (keepAlive (keepAlive s).2).1).2.schedules =
      ((keepAlive s).1, "_cf_keepAliveHeartbeat") :: s.schedules ∧
    heartbeatCount
        (cancelSchedule (keepAlive (keepAlive s).2).2
          (keepAlive (keepAlive s).2).1).2 =
      heartbeatCount s + 1 ∧
    cancelSchedule
        (cancelSchedule (keepAlive (keepAlive s).2).2
          (keepAlive (keepAlive s).2).1).2
        (keepAlive (keepAlive s).2).1 =
      (false,
        (cancelSchedule (keepAlive (keepAlive s).2).2
          (keepAlive (keepAlive s).2).1).2) := by
  have hni : ∀ p ∈ (s.nextId, "_cf_keepAliveHeartbeat") :: s.schedules,
      p.1 ≠ s.nextId + 1 := by
    intro p hp
    rcases List.mem_cons.mp hp with rfl | hp2
    · simp
    · have := hwf p hp2
      omega
  have e1 : (keepAlive (keepAlive s).2).2 =
      { schedules := (s.nextId + 1, "_cf_keepAliveHeartbeat") ::
          (s.nextId, "_cf_keepAliveHeartbeat") :: s.schedules
        nextId := s.nextId + 1 + 1 } := rfl
  have e2 : (keepAlive (keepAlive s).2).1 = s.nextId + 1 := rfl
  have e3 : (keepAlive s).1 = s.nextId := rfl
  have hc1 := cancelSchedule_cons (s.nextId + 1 + 1) (s.nextId + 1)
    "_cf_keepAliveHeartbeat" ((s.nextId, "_cf_keepAliveHeartbeat") :: s.schedules) hni
  rw [e1, e2, e3, hc1]
  refine ⟨?_, rfl, ?_, ?_⟩
  · simp [heartbeatCount, List.filter_cons]
  · simp [heartbeatCount, List.filter_cons]
  · exact cancelSchedule_absent _ _ hni

/-- Witness for claim C8 starting from the empty schedule table. -/
theorem keepAlive_stacking_witness :
    heartbeatCount (keepAlive (keepAlive kaEmpty).2).2 = heartbeatCount kaEmpty + 2 ∧
    (cancelSchedule (keepAlive (keepAlive kaEmpty).2).2
        (keepAlive (keepAlive kaEmpty).2).1).2.schedules =
      ((keepAlive kaEmpty).1, "_cf_keepAliveHeartbeat") :: kaEmpty.schedules ∧
    heartbeatCount
        (cancelSchedule (keepAlive (keepAlive kaEmpty).2).2
          (keepAlive (keepAlive kaEmpty).2).1).2 =
      heartbeatCount kaEmpty + 1 ∧
    cancelSchedule
        (cancelSchedule (keepAlive (keepAlive kaEmpty).2).2
          (keepAlive (keepAlive kaEmpty).2).1).2
        (keepAlive (keepAlive kaEmpty).2).1 =
      (false,
        (cancelSchedule (keepAlive (keepAlive kaEmpty).2).2
          (keepAlive (keepAlive kaEmpty).2).1).2) :=
  keepAlive_stacking kaEmpty (by decide)
